import Mathlib

/-!
Shallow embedding of the Cradle mobile client core: the streaming upload
pipeline (src/mobile/src/services/StreamingService.ts) and the connection
manager (src/mobile/src/services/WebSocketService.tsx).

Backend interactions are modelled as oracle inputs: the outcome of each
chunk upload in a flush is a function from the position in the batch to a
Bool, and the outcome of a session start or end request is a parameter.
Every upload attempt is recorded, together with the session id in the
request URL, so that theorems can speak about which session a chunk was
uploaded under.
-/

namespace Streaming

/-- Media kind of a captured chunk, the chunk_type field in the source. -/
inductive ChunkType where
  | audio
  | video
deriving Repr, DecidableEq

/-- StreamChunk from StreamingService.ts: chunk_type, data, timestamp and
the session id stamped at capture time. -/
structure StreamChunk where
  chunk_type : ChunkType
  data : List Nat
  timestamp : Nat
  session_id : String
deriving Repr, DecidableEq

/-- StreamSession from StreamingService.ts, restricted to the fields the
client ever writes: session_id from the backend response, device_id, and
the is_active flag which the constructor sets to true. -/
structure StreamSession where
  session_id : String
  device_id : String
  is_active : Bool
deriving Repr, DecidableEq

/-- Mutable fields of the StreamingService class: currentSession,
isStreaming, chunkQueue (head is the oldest element, push appends at the
end, shift removes the head, unshift prepends) and whether the
2-second upload interval is armed (uploadInterval not null). -/
structure StreamingState where
  currentSession : Option StreamSession
  isStreaming : Bool
  chunkQueue : List StreamChunk
  uploadIntervalArmed : Bool
deriving Repr, DecidableEq

/-- Field initializers of the StreamingService class. -/
def streamInit : StreamingState :=
  { currentSession := none, isStreaming := false, chunkQueue := [], uploadIntervalArmed := false }

/-- Record of one chunk-upload request issued by uploadSingleChunk: the
session id appearing in the request URL (always the session id of
currentSession at upload time), the chunk sent, and whether the backend
accepted it. -/
structure UploadAttempt where
  targetSession : String
  chunk : StreamChunk
  ok : Bool
deriving Repr, DecidableEq

/-- isSessionActive from StreamingService.ts: isStreaming and a non-null
currentSession. -/
def isSessionActive (s : StreamingState) : Bool :=
  s.isStreaming && s.currentSession.isSome

/-- getQueueSize from StreamingService.ts. -/
def getQueueSize (s : StreamingState) : Nat :=
  s.chunkQueue.length

/-- uploadChunk from StreamingService.ts: with no active session the chunk
is discarded; otherwise a chunk stamped with the current session id and
the capture timestamp is pushed, and if the queue then holds more than 50
chunks the oldest one is shifted off. -/
def uploadChunk (s : StreamingState) (ct : ChunkType) (d : List Nat) (now : Nat) :
    StreamingState :=
  match s.currentSession, s.isStreaming with
  | some sess, true =>
      let c : StreamChunk :=
        { chunk_type := ct, data := d, timestamp := now, session_id := sess.session_id }
      let q := s.chunkQueue ++ [c]
      let q := if q.length > 50 then q.tail else q
      { s with chunkQueue := q }
  | _, _ => s

/-- Loop body of processChunkQueue: the spliced-off batch is uploaded one
chunk at a time; a failed chunk is unshifted back onto the live queue
when that queue currently holds fewer than 30 chunks, and is dropped
otherwise. The outcome oracle gives the result of the upload at each
batch position. Returns the final queue and the list of upload attempts
in order. -/
def processBatch (sid : String) :
    List StreamChunk → (Nat → Bool) → Nat → List StreamChunk →
    List StreamChunk × List UploadAttempt
  | [], _, _, q => (q, [])
  | c :: cs, out, i, q =>
      if out i then
        let r := processBatch sid cs out (i + 1) q
        (r.1, ⟨sid, c, true⟩ :: r.2)
      else
        let q2 := if q.length < 30 then c :: q else q
        let r := processBatch sid cs out (i + 1) q2
        (r.1, ⟨sid, c, false⟩ :: r.2)

/-- processChunkQueue from StreamingService.ts: returns immediately when
the queue is empty or there is no current session; otherwise splices off
the first (up to) 10 chunks and uploads each of them, re-adding failures
per processBatch. -/
def processChunkQueue (s : StreamingState) (out : Nat → Bool) :
    StreamingState × List UploadAttempt :=
  match s.currentSession with
  | none => (s, [])
  | some sess =>
      if s.chunkQueue.length = 0 then (s, [])
      else
        let batch := s.chunkQueue.take 10
        let rest := s.chunkQueue.drop 10
        let r := processBatch sess.session_id batch out 0 rest
        ({ s with chunkQueue := r.1 }, r.2)

/-- startChunkUploader from StreamingService.ts: arms the 2-second upload
interval. -/
def startChunkUploader (s : StreamingState) : StreamingState :=
  { s with uploadIntervalArmed := true }

/-- stopChunkUploader from StreamingService.ts: clears the upload interval
and then runs processChunkQueue once on the remaining chunks. -/
def stopChunkUploader (s : StreamingState) (out : Nat → Bool) :
    StreamingState × List UploadAttempt :=
  processChunkQueue { s with uploadIntervalArmed := false } out

/-- startSession from StreamingService.ts: issues the start-session
request; on backend failure the error is re-thrown with no state change
(the Bool result is false); on success currentSession is replaced by a
fresh active session, isStreaming is set, and the uploader is armed.
There is no check that a session is already active. -/
def startSession (s : StreamingState) (deviceId : String) (resp : Option String) :
    StreamingState × Bool :=
  match resp with
  | none => (s, false)
  | some sid =>
      let s := { s with
        currentSession := some { session_id := sid, device_id := deviceId, is_active := true },
        isStreaming := true }
      (startChunkUploader s, true)

/-- Result of a call to endSession: the state afterwards, the upload
attempts of the terminal flush, whether the end-session backend request
was issued, and whether the call returned normally (false means the
caught error was re-thrown). -/
structure EndResult where
  state : StreamingState
  uploads : List UploadAttempt
  endRequested : Bool
  ok : Bool
deriving Repr, DecidableEq

/-- endSession from StreamingService.ts: returns at once when
currentSession is null; otherwise clears isStreaming, runs
stopChunkUploader (terminal flush), then issues the end-session request;
when that request succeeds currentSession is set to null, and when it
fails the error is re-thrown, leaving currentSession in place. The chunk
queue is never cleared here. -/
def endSession (s : StreamingState) (out : Nat → Bool) (endOk : Bool) : EndResult :=
  match s.currentSession with
  | none => { state := s, uploads := [], endRequested := false, ok := true }
  | some _ =>
      let s1 := { s with isStreaming := false }
      let r := stopChunkUploader s1 out
      if endOk then
        { state := { r.1 with currentSession := none }, uploads := r.2,
          endRequested := true, ok := true }
      else
        { state := r.1, uploads := r.2, endRequested := true, ok := false }

/-- cleanup from StreamingService.ts: stopChunkUploader, then the queue,
session and streaming flag are all cleared. -/
def cleanup (s : StreamingState) (out : Nat → Bool) : StreamingState :=
  let r := stopChunkUploader s out
  { r.1 with chunkQueue := [], currentSession := none, isStreaming := false }

/-- Externally triggerable operations of the pipeline, with their backend
oracles: startSession, endSession, uploadChunk (a capture submission), a
flush-interval tick, and cleanup. -/
inductive Op where
  | start (deviceId : String) (resp : Option String)
  | endS (out : Nat → Bool) (endOk : Bool)
  | submit (ct : ChunkType) (d : List Nat) (now : Nat)
  | tick (out : Nat → Bool)
  | clean (out : Nat → Bool)

/-- Effect of one operation on the pipeline state. -/
def step (s : StreamingState) : Op → StreamingState
  | .start d r => (startSession s d r).1
  | .endS out k => (endSession s out k).state
  | .submit ct d now => uploadChunk s ct d now
  | .tick out => (processChunkQueue s out).1
  | .clean out => cleanup s out

/-- State of the pipeline after a sequence of operations from the initial
state. -/
def run (ops : List Op) : StreamingState :=
  ops.foldl step streamInit

end Streaming

namespace WS

/-- Ready state of the underlying socket object, mirroring the WebSocket
API constants tested in WebSocketService.tsx. -/
inductive ReadyState where
  | CONNECTING
  | OPEN
  | CLOSING
  | CLOSED
deriving Repr, DecidableEq

/-- Values of the connectionStatus React state in WebSocketService.tsx. -/
inductive ConnStatus where
  | connecting
  | connected
  | disconnected
  | error
deriving Repr, DecidableEq

/-- Argument of sendMessage: a message whose timestamp and device_id may
be absent and are then stamped at send time. -/
structure WSMessage where
  type : String
  timestamp : Option Nat
  device_id : Option String
deriving Repr, DecidableEq

/-- A message as written to the socket, after stamping. -/
structure SentMessage where
  type : String
  timestamp : Nat
  device_id : String
deriving Repr, DecidableEq

/-- RECONNECT_INTERVAL from WebSocketService.tsx. -/
def RECONNECT_INTERVAL : Nat := 5000

/-- MAX_RECONNECT_ATTEMPTS from WebSocketService.tsx. -/
def MAX_RECONNECT_ATTEMPTS : Nat := 10

/-- State held by the WebSocketProvider: the isConnected and
connectionStatus React states, the reconnectAttemptsRef counter, the
pending reconnect timer (with the delay it was armed with), the socket
held in wsRef (none when wsRef.current is null), the user device id from
the auth context, plus two observation logs: the messages written to the
socket and the delays passed to setTimeout by scheduleReconnect, and a
counter of not-connected warnings from sendMessage. -/
structure WSState where
  isConnected : Bool
  connectionStatus : ConnStatus
  reconnectAttempts : Nat
  reconnectTimer : Option Nat
  socket : Option ReadyState
  userDeviceId : String
  sent : List SentMessage
  scheduledDelays : List Nat
  warnings : Nat
deriving Repr, DecidableEq

/-- Initial provider state: disconnected, zero attempts, no timer, no
socket. -/
def wsInit (dev : String) : WSState :=
  { isConnected := false, connectionStatus := .disconnected, reconnectAttempts := 0,
    reconnectTimer := none, socket := none, userDeviceId := dev,
    sent := [], scheduledDelays := [], warnings := 0 }

/-- scheduleReconnect from WebSocketService.tsx: increments
reconnectAttemptsRef, computes min(RECONNECT_INTERVAL times the new
count, 30000) and arms the reconnect timer with that delay, replacing any
pending one. The delay is also appended to the observation log. -/
def scheduleReconnect (s : WSState) : WSState :=
  let a := s.reconnectAttempts + 1
  let delay := min (RECONNECT_INTERVAL * a) 30000
  { s with reconnectAttempts := a, reconnectTimer := some delay,
           scheduledDelays := s.scheduledDelays ++ [delay] }

/-- sendMessage from WebSocketService.tsx: when the socket ready state is
OPEN the message is stamped (timestamp defaults to now, device_id to the
authenticated device) and written to the socket; otherwise only a warning
is logged and nothing is stored or sent. -/
def sendMessage (s : WSState) (m : WSMessage) (now : Nat) : WSState :=
  if s.socket = some ReadyState.OPEN then
    { s with sent := s.sent ++
        [{ type := m.type, timestamp := m.timestamp.getD now,
           device_id := m.device_id.getD s.userDeviceId }] }
  else
    { s with warnings := s.warnings + 1 }

/-- onopen handler: marks the connection established, resets the attempt
counter to zero and sends the initial device_info message. -/
def onOpen (s : WSState) (now : Nat) : WSState :=
  let s := { s with socket := some ReadyState.OPEN, isConnected := true,
                    connectionStatus := .connected, reconnectAttempts := 0 }
  sendMessage s { type := "device_info", timestamp := none, device_id := none } now

/-- onclose handler: records the disconnect, and schedules a reconnect
exactly when the close code differs from 1000 and the attempt counter is
still below MAX_RECONNECT_ATTEMPTS. -/
def onClose (s : WSState) (code : Nat) : WSState :=
  let s := { s with socket := some ReadyState.CLOSED, isConnected := false,
                    connectionStatus := .disconnected }
  if code ≠ 1000 ∧ s.reconnectAttempts < MAX_RECONNECT_ATTEMPTS then
    scheduleReconnect s
  else s

/-- onerror handler: only sets the connection status to error. -/
def onError (s : WSState) : WSState :=
  { s with connectionStatus := .error }

/-- connect from WebSocketService.tsx. hasAuth tells whether user and
token are available (otherwise the call returns immediately); a socket
already CONNECTING or OPEN also makes it a no-op. ctorOk tells whether
constructing the WebSocket succeeds: on success the status becomes
connecting and a CONNECTING socket is installed; on a synchronous
constructor failure the catch sets the status to error and calls
scheduleReconnect unconditionally. -/
def connect (s : WSState) (hasAuth ctorOk : Bool) : WSState :=
  if !hasAuth then s
  else if s.socket = some ReadyState.CONNECTING ∨ s.socket = some ReadyState.OPEN then s
  else if ctorOk then
    { s with connectionStatus := .connecting, socket := some ReadyState.CONNECTING }
  else
    scheduleReconnect { s with connectionStatus := .error }

/-- disconnect from WebSocketService.tsx: clears any pending reconnect
timer, closes the socket with the normal code 1000 and nulls wsRef, and
records the disconnected status. -/
def disconnect (s : WSState) : WSState :=
  { s with reconnectTimer := none, socket := none,
           isConnected := false, connectionStatus := .disconnected }

/-- Applies n successive onclose events with the abnormal code 1006. -/
def closesN : Nat → WSState → WSState
  | 0, s => s
  | n + 1, s => onClose (closesN n s) 1006

/-- A freshly connected provider for the device d: connect succeeded and
the socket opened, so the attempt counter and the delay log are empty. -/
def freshConn (d : String) : WSState :=
  onOpen (connect (wsInit d) true true) 0

end WS

namespace Streaming

/-- Applies n flush ticks on which every upload fails. -/
def failTicks : Nat → StreamingState → StreamingState
  | 0, s => s
  | n + 1, s => failTicks n (processChunkQueue s (fun _ => false)).1

/-- The single chunk captured in the c1state scenario. -/
def c1chunk : StreamChunk :=
  { chunk_type := ChunkType.audio, data := [], timestamp := 0, session_id := "A" }

/-- Pipeline state reached by starting session A and submitting one
chunk: the queue holds exactly c1chunk. -/
def c1state : StreamingState :=
  run [Op.start "d" (some "A"), Op.submit ChunkType.audio [] 0]

/-- A pipeline state with an active session and 40 queued chunks. -/
def c40state : StreamingState :=
  { currentSession := some { session_id := "A", device_id := "d", is_active := true },
    isStreaming := true,
    chunkQueue := (List.range 40).map
      (fun i => { chunk_type := ChunkType.audio, data := [], timestamp := i, session_id := "A" }),
    uploadIntervalArmed := true }

/-- Pipeline state reached by starting session A and submitting 11
chunks with timestamps 0 to 10. -/
def c2state : StreamingState :=
  run (Op.start "d" (some "A") ::
    (List.range 11).map (fun i => Op.submit ChunkType.audio [] i))

/-- Pipeline state reached by starting session A and submitting 7 chunks
with timestamps 0 to 6. -/
def c2small : StreamingState :=
  run (Op.start "d" (some "A") ::
    (List.range 7).map (fun i => Op.submit ChunkType.audio [] i))

/-- A pipeline state with an active session A and a full queue of 50
chunks. -/
def c5cap : StreamingState :=
  { currentSession := some { session_id := "A", device_id := "d", is_active := true },
    isStreaming := true,
    chunkQueue := (List.range 50).map
      (fun i => { chunk_type := ChunkType.audio, data := [], timestamp := i, session_id := "A" }),
    uploadIntervalArmed := true }

/-- Operation sequence of testable scenario 3: start session A, then
submit 60 chunks with timestamps 0 to 59. -/
def c5ops : List Op :=
  Op.start "d" (some "A") ::
    (List.range 60).map (fun i => Op.submit ChunkType.audio [] i)

/-- The 50 most recently submitted chunks of the c5ops scenario. -/
def c5expected : List StreamChunk :=
  ((List.range 60).map
    (fun i => ({ chunk_type := ChunkType.audio, data := [], timestamp := i,
                 session_id := "A" } : StreamChunk))).drop 10

/-- Pipeline state with session A active: one session started on device
d1 from the initial state. -/
def c6active : StreamingState :=
  run [Op.start "d1" (some "A")]

/-- Result of ending session A when one chunk is queued and its upload
fails during the terminal flush while the end-session request succeeds:
the session is cleared but the stamped chunk stays queued. -/
def c9end : EndResult :=
  endSession (run [Op.start "dA" (some "A"), Op.submit ChunkType.audio [] 7])
    (fun _ => false) true

/-- State after a second session B is started on top of the leftover
queue of the ended session A. -/
def c9later : StreamingState :=
  (startSession c9end.state "dB" (some "B")).1

end Streaming

namespace WS

/-- Provider state after ten abnormal closes: the attempt counter has
reached MAX_RECONNECT_ATTEMPTS. -/
def c8exhausted : WSState :=
  closesN 10 (freshConn "dev")

/-- Provider state after a connect whose WebSocket constructor throws is
issued in the exhausted state. -/
def c8state : WSState :=
  connect c8exhausted true false

end WS

namespace Streaming

theorem processBatch_fst_len_le (sid : String) (b : List StreamChunk) (out : Nat → Bool) :
    ∀ (i : Nat) (q : List StreamChunk), q.length ≤ 50 →
      (processBatch sid b out i q).1.length ≤ 50 := by
  induction b with
  | nil => intro i q h; simpa [processBatch] using h
  | cons c cs ih =>
    intro i q h
    cases ho : out i with
    | false =>
      have h2 : (if q.length < 30 then c :: q else q).length ≤ 50 := by
        by_cases hq : q.length < 30
        · simp only [hq, if_true, List.length_cons]; omega
        · simpa [hq] using h
      simpa [processBatch, ho] using ih (i + 1) _ h2
    | true => simpa [processBatch, ho] using ih (i + 1) q h

theorem processBatch_snd_length (sid : String) (b : List StreamChunk) (out : Nat → Bool) :
    ∀ (i : Nat) (q : List StreamChunk),
      (processBatch sid b out i q).2.length = b.length := by
  induction b with
  | nil => intro i q; simp [processBatch]
  | cons c cs ih =>
    intro i q
    rcases Bool.eq_false_or_eq_true (out i) with ho | ho <;>
      simp [processBatch, ho, ih]

theorem processBatch_fst_of_ge30 (sid : String) (b : List StreamChunk) (out : Nat → Bool) :
    ∀ (i : Nat) (q : List StreamChunk), 30 ≤ q.length →
      (processBatch sid b out i q).1 = q := by
  induction b with
  | nil => intro i q _; simp [processBatch]
  | cons c cs ih =>
    intro i q h
    have hq : ¬ q.length < 30 := by omega
    rcases Bool.eq_false_or_eq_true (out i) with ho | ho <;>
      simp [processBatch, ho, hq, ih (i + 1) q h]

theorem processBatch_fst_allTrue (sid : String) (b : List StreamChunk) :
    ∀ (i : Nat) (q : List StreamChunk),
      (processBatch sid b (fun _ => true) i q).1 = q := by
  induction b with
  | nil => intro i q; simp [processBatch]
  | cons c cs ih => intro i q; simp [processBatch, ih]

theorem processBatch_snd_target (sid : String) (b : List StreamChunk) (out : Nat → Bool) :
    ∀ (i : Nat) (q : List StreamChunk) (a : UploadAttempt),
      a ∈ (processBatch sid b out i q).2 → a.targetSession = sid := by
  induction b with
  | nil => intro i q a ha; simp [processBatch] at ha
  | cons c cs ih =>
    intro i q a ha
    rcases Bool.eq_false_or_eq_true (out i) with ho | ho <;>
      · simp only [processBatch, ho] at ha
        simp only [Bool.false_eq_true, if_false, if_true, List.mem_cons] at ha
        rcases ha with ha | ha
        · rw [ha]
        · exact ih _ _ a ha

theorem processChunkQueue_fields (s : StreamingState) (out : Nat → Bool) :
    (processChunkQueue s out).1.currentSession = s.currentSession
  ∧ (processChunkQueue s out).1.isStreaming = s.isStreaming
  ∧ (processChunkQueue s out).1.uploadIntervalArmed = s.uploadIntervalArmed := by
  obtain ⟨cs, str, q, arm⟩ := s
  cases cs with
  | none => simp [processChunkQueue]
  | some sess =>
    by_cases h0 : q.length = 0 <;> simp [processChunkQueue, h0]

theorem processChunkQueue_len_le (s : StreamingState) (out : Nat → Bool)
    (h : s.chunkQueue.length ≤ 50) :
    (processChunkQueue s out).1.chunkQueue.length ≤ 50 := by
  obtain ⟨cs, str, q, arm⟩ := s
  cases cs with
  | none => simpa [processChunkQueue] using h
  | some sess =>
    by_cases h0 : q.length = 0
    · simp only [processChunkQueue, h0, if_true]
      omega
    · have hrest : (q.drop 10).length ≤ 50 := by
        rw [List.length_drop]; simp only [] at h; omega
      simpa [processChunkQueue, h0] using
        processBatch_fst_len_le sess.session_id (q.take 10) out 0 _ hrest

theorem uploadChunk_len_le (s : StreamingState) (ct : ChunkType) (d : List Nat) (now : Nat)
    (h : s.chunkQueue.length ≤ 50) :
    (uploadChunk s ct d now).chunkQueue.length ≤ 50 := by
  obtain ⟨cs, str, q, arm⟩ := s
  cases cs with
  | none => simpa [uploadChunk] using h
  | some sess =>
    cases str with
    | false => simpa [uploadChunk] using h
    | true =>
      simp only [uploadChunk, List.length_append, List.length_cons, List.length_nil] at h ⊢
      by_cases hp : q.length + 0 + 1 > 50
      · simp only [hp, if_true, List.length_tail, List.length_append, List.length_cons,
          List.length_nil]
        omega
      · simp only [hp, if_false, List.length_append, List.length_cons, List.length_nil]
        omega

theorem step_len_le (s : StreamingState) (op : Op)
    (h : s.chunkQueue.length ≤ 50) : (step s op).chunkQueue.length ≤ 50 := by
  cases op with
  | start d r =>
    cases r <;> simpa [step, startSession, startChunkUploader] using h
  | endS out k =>
    show (endSession s out k).state.chunkQueue.length ≤ 50
    obtain ⟨cs, str, q, arm⟩ := s
    cases cs with
    | none => simpa [endSession] using h
    | some sess =>
      have hp := processChunkQueue_len_le ⟨some sess, false, q, false⟩ out (by simpa using h)
      cases k <;> simpa [endSession, stopChunkUploader] using hp
  | submit ct d now => exact uploadChunk_len_le s ct d now h
  | tick out => exact processChunkQueue_len_le s out h
  | clean out => simp [step, cleanup]

theorem run_len_le (ops : List Op) : (run ops).chunkQueue.length ≤ 50 := by
  suffices h : ∀ s : StreamingState, s.chunkQueue.length ≤ 50 →
      (ops.foldl step s).chunkQueue.length ≤ 50 by
    exact h streamInit (by simp [streamInit])
  induction ops with
  | nil => intro s h; simpa using h
  | cons op rest ih => intro s h; exact ih _ (step_len_le s op h)

end Streaming

namespace WS

theorem closesN_spec (s : WSState) (h0 : s.reconnectAttempts = 0)
    (hd : s.scheduledDelays = []) :
    ∀ n, n ≤ MAX_RECONNECT_ATTEMPTS →
      (closesN n s).reconnectAttempts = n
    ∧ (closesN n s).scheduledDelays
        = (List.range n).map (fun i => min (RECONNECT_INTERVAL * (i + 1)) 30000) := by
  intro n
  induction n with
  | zero => intro _; exact ⟨h0, by simpa [closesN] using hd⟩
  | succ n ih =>
    intro hn
    obtain ⟨ha, hdl⟩ := ih (by omega)
    have hlt : n < MAX_RECONNECT_ATTEMPTS := by omega
    constructor
    · simp [closesN, onClose, hlt, scheduleReconnect, ha]
    · simp [closesN, onClose, hlt, scheduleReconnect, ha, hdl, List.range_succ]

end WS

namespace Streaming

theorem uploadChunk_active (s : StreamingState) (sess : StreamSession) (ct : ChunkType)
    (d : List Nat) (now : Nat) (hs : s.currentSession = some sess)
    (hstr : s.isStreaming = true) :
    (uploadChunk s ct d now).chunkQueue =
      if (s.chunkQueue ++
            [({ chunk_type := ct, data := d, timestamp := now,
                session_id := sess.session_id } : StreamChunk)]).length > 50
      then (s.chunkQueue ++
            [({ chunk_type := ct, data := d, timestamp := now,
                session_id := sess.session_id } : StreamChunk)]).tail
      else s.chunkQueue ++
            [({ chunk_type := ct, data := d, timestamp := now,
                session_id := sess.session_id } : StreamChunk)] := by
  unfold uploadChunk
  rw [hs, hstr]

theorem processChunkQueue_some (s : StreamingState) (sess : StreamSession) (out : Nat → Bool)
    (hs : s.currentSession = some sess) (h0 : ¬ s.chunkQueue.length = 0) :
    processChunkQueue s out =
      ({ s with chunkQueue :=
          (processBatch sess.session_id (s.chunkQueue.take 10) out 0 (s.chunkQueue.drop 10)).1 },
       (processBatch sess.session_id (s.chunkQueue.take 10) out 0 (s.chunkQueue.drop 10)).2) := by
  unfold processChunkQueue
  rw [hs]
  simp [h0]

theorem processChunkQueue_none (s : StreamingState) (out : Nat → Bool)
    (hs : s.currentSession = none) :
    processChunkQueue s out = (s, []) := by
  unfold processChunkQueue
  rw [hs]

theorem processChunkQueue_empty (s : StreamingState) (out : Nat → Bool)
    (h0 : s.chunkQueue.length = 0) :
    processChunkQueue s out = (s, []) := by
  unfold processChunkQueue
  cases hs : s.currentSession with
  | none => rfl
  | some sess => simp [h0]

theorem endSession_some (s : StreamingState) (sess : StreamSession) (out : Nat → Bool)
    (endOk : Bool) (hs : s.currentSession = some sess) :
    endSession s out endOk =
      (let r := stopChunkUploader { s with isStreaming := false } out
       if endOk then
         { state := { r.1 with currentSession := none }, uploads := r.2,
           endRequested := true, ok := true }
       else
         { state := r.1, uploads := r.2, endRequested := true, ok := false }) := by
  unfold endSession
  rw [hs]

end Streaming

open Streaming in
/-- C4: for every sequence of consecutive failed connection attempts, the
delay scheduled at each abnormal close equals
min(RECONNECT_INTERVAL times the attempt count after its increment,
30000); that formula is non-decreasing in the attempt count and never
exceeds 30000; and three consecutive abnormal closes from a fresh
connection schedule the delays 5000, 10000 and 15000 milliseconds. -/
theorem C4_backoff_delay :
    (∀ n : Nat, n ≤ WS.MAX_RECONNECT_ATTEMPTS →
      (WS.closesN n (WS.freshConn "dev")).scheduledDelays
        = (List.range n).map (fun i => min (WS.RECONNECT_INTERVAL * (i + 1)) 30000))
  ∧ (∀ a b : Nat, a ≤ b →
      min (WS.RECONNECT_INTERVAL * a) 30000 ≤ min (WS.RECONNECT_INTERVAL * b) 30000)
  ∧ (∀ n : Nat, n ≤ WS.MAX_RECONNECT_ATTEMPTS →
      ∀ x ∈ (WS.closesN n (WS.freshConn "dev")).scheduledDelays, x ≤ 30000)
  ∧ (WS.closesN 3 (WS.freshConn "dev")).scheduledDelays = [5000, 10000, 15000] := by
  have hbase := WS.closesN_spec (WS.freshConn "dev") (by decide) (by decide)
  refine ⟨fun n hn => (hbase n hn).2, ?_, ?_, by decide⟩
  · intro a b hab
    exact min_le_min (mul_le_mul_left' hab WS.RECONNECT_INTERVAL) le_rfl
  · intro n hn x hx
    rw [(hbase n hn).2] at hx
    obtain ⟨i, hi, rfl⟩ := List.mem_map.mp hx
    exact min_le_right _ _

/-- Witness for C4 at concrete inputs: two closes schedule the first two
delays of the formula, and the formula is monotone from attempt 2 to 3. -/
theorem C4_backoff_delay_witness :
    (WS.closesN 2 (WS.freshConn "dev")).scheduledDelays
      = (List.range 2).map (fun i => min (WS.RECONNECT_INTERVAL * (i + 1)) 30000)
  ∧ min (WS.RECONNECT_INTERVAL * 2) 30000 ≤ min (WS.RECONNECT_INTERVAL * 3) 30000 :=
  ⟨C4_backoff_delay.1 2 (by decide), C4_backoff_delay.2.1 2 3 (by decide)⟩

set_option maxRecDepth 4000 in
open Streaming in
/-- C5: after every operation sequence from the initial pipeline state
the chunk queue holds at most 50 chunks; submitting a chunk with an
active session and a full queue of 50 drops the oldest chunk and appends
the new one; and submitting 60 chunks to an empty queue leaves exactly
the 50 most recently submitted chunks. -/
theorem C5_queue_capacity_drop_oldest :
    (∀ ops : List Op, (run ops).chunkQueue.length ≤ 50)
  ∧ (∀ (s : StreamingState) (sess : StreamSession) (ct : ChunkType) (d : List Nat) (now : Nat),
      s.currentSession = some sess → s.isStreaming = true → s.chunkQueue.length = 50 →
      (uploadChunk s ct d now).chunkQueue
        = s.chunkQueue.tail ++
            [({ chunk_type := ct, data := d, timestamp := now,
                session_id := sess.session_id } : StreamChunk)])
  ∧ (run c5ops).chunkQueue = c5expected := by
  refine ⟨run_len_le, ?_, by decide⟩
  intro s sess ct d now hs hstr hlen
  rw [uploadChunk_active s sess ct d now hs hstr]
  have h51 : (s.chunkQueue ++
      [({ chunk_type := ct, data := d, timestamp := now,
          session_id := sess.session_id } : StreamChunk)]).length > 50 := by
    simp [hlen]
  rw [if_pos h51]
  cases hq : s.chunkQueue with
  | nil => rw [hq] at hlen; simp at hlen
  | cons a as => simp

set_option maxRecDepth 4000 in
/-- Witness for C5 at concrete inputs: the 60-submission run respects the
bound, and one submission on a full 50-chunk queue drops the head. -/
theorem C5_queue_capacity_drop_oldest_witness :
    (Streaming.run Streaming.c5ops).chunkQueue.length ≤ 50
  ∧ (Streaming.uploadChunk Streaming.c5cap Streaming.ChunkType.audio [] 99).chunkQueue
      = Streaming.c5cap.chunkQueue.tail ++
          [({ chunk_type := Streaming.ChunkType.audio, data := [], timestamp := 99,
              session_id := "A" } : Streaming.StreamChunk)] :=
  ⟨C5_queue_capacity_drop_oldest.1 Streaming.c5ops,
   C5_queue_capacity_drop_oldest.2.1 Streaming.c5cap
     { session_id := "A", device_id := "d", is_active := true }
     Streaming.ChunkType.audio [] 99 rfl rfl (by decide)⟩

/-- C7: a message passed to sendMessage while the socket is not OPEN
(the Connected state holds exactly while the socket is open) is dropped
with a warning: the resulting state is the old one with the warning count
bumped, so nothing is sent and no internal queue grows, and the function
returns normally. -/
theorem C7_send_while_not_open_drops (s : WS.WSState) (m : WS.WSMessage) (now : Nat)
    (h : ¬ s.socket = some WS.ReadyState.OPEN) :
    WS.sendMessage s m now = { s with warnings := s.warnings + 1 }
  ∧ (WS.sendMessage s m now).sent = s.sent := by
  refine ⟨?_, ?_⟩ <;> simp [WS.sendMessage, h]

/-- Witness for C7: sending in the initial disconnected state only bumps
the warning counter. -/
theorem C7_send_while_not_open_drops_witness :
    WS.sendMessage (WS.wsInit "dev") { type := "x", timestamp := none, device_id := none } 0
      = { WS.wsInit "dev" with warnings := (WS.wsInit "dev").warnings + 1 }
  ∧ (WS.sendMessage (WS.wsInit "dev")
      { type := "x", timestamp := none, device_id := none } 0).sent
      = (WS.wsInit "dev").sent :=
  C7_send_while_not_open_drops (WS.wsInit "dev")
    { type := "x", timestamp := none, device_id := none } 0 (by decide)

open Streaming in
/-- C10: endSession called with no current session returns successfully,
issues no backend request, performs no uploads and leaves the whole
pipeline state (queue, timer flag, streaming flag) unchanged. -/
theorem C10_endSession_noop_without_session (s : StreamingState) (out : Nat → Bool)
    (endOk : Bool) (h : s.currentSession = none) :
    endSession s out endOk
      = { state := s, uploads := [], endRequested := false, ok := true } := by
  unfold endSession
  rw [h]

/-- Witness for C10: ending from the initial state is a no-op. -/
theorem C10_endSession_noop_without_session_witness :
    Streaming.endSession Streaming.streamInit (fun _ => true) true
      = { state := Streaming.streamInit, uploads := [], endRequested := false, ok := true } :=
  C10_endSession_noop_without_session Streaming.streamInit (fun _ => true) true rfl

set_option maxRecDepth 4000 in
/-- Counterexample to C1 as stated: a chunk in an otherwise empty queue
whose upload fails 31 consecutive times is still in the queue after the
31st failure, because the re-enqueue guard compares the queue length with
30 and keeps no per-chunk retry count. -/
theorem C1_counterexample :
    (Streaming.failTicks 31 Streaming.c1state).chunkQueue = [Streaming.c1chunk] := by
  decide

open Streaming in
/-- C1 amended: a chunk whose upload fails is re-enqueued at the front of
the queue only when the queue currently holds fewer than 30 chunks, and
is otherwise discarded in that tick; there is no per-chunk retry counter,
so with an otherwise empty queue a failing chunk is retried indefinitely
(first clause), while any flush tick starting from a queue of at least 40
chunks removes its whole batch for good whatever the upload outcomes
(second clause). -/
theorem C1_retry_bound_is_queue_occupancy :
    (∀ n : Nat, (failTicks n c1state).chunkQueue = [c1chunk])
  ∧ (∀ (s : StreamingState) (sess : StreamSession) (out : Nat → Bool),
      s.currentSession = some sess → 40 ≤ s.chunkQueue.length →
      (processChunkQueue s out).1.chunkQueue = s.chunkQueue.drop 10) := by
  constructor
  · have hstep : (processChunkQueue c1state (fun _ => false)).1 = c1state := by decide
    intro n
    induction n with
    | zero => decide
    | succ n ih =>
      show (failTicks n (processChunkQueue c1state (fun _ => false)).1).chunkQueue = [c1chunk]
      rw [hstep]
      exact ih
  · intro s sess out hs hlen
    have h0 : ¬ s.chunkQueue.length = 0 := by omega
    rw [processChunkQueue_some s sess out hs h0]
    exact processBatch_fst_of_ge30 sess.session_id (s.chunkQueue.take 10) out 0
      (s.chunkQueue.drop 10) (by rw [List.length_drop]; omega)

/-- Witness for C1 amended at concrete inputs: three failing ticks keep
the lone chunk, and a failing tick on a 40-chunk queue removes exactly
the first batch of 10. -/
theorem C1_retry_bound_is_queue_occupancy_witness :
    (Streaming.failTicks 3 Streaming.c1state).chunkQueue = [Streaming.c1chunk]
  ∧ (Streaming.processChunkQueue Streaming.c40state (fun _ => false)).1.chunkQueue
      = Streaming.c40state.chunkQueue.drop 10 :=
  ⟨C1_retry_bound_is_queue_occupancy.1 3,
   C1_retry_bound_is_queue_occupancy.2 Streaming.c40state
     { session_id := "A", device_id := "d", is_active := true }
     (fun _ => false) rfl (by decide)⟩

/-- Counterexample to C2 as stated: with 11 chunks queued and every
upload succeeding, the terminal flush of endSession uploads only 10
chunks (the per-tick batch limit is not ignored) and the queue is not
empty afterwards. -/
theorem C2_counterexample :
    Streaming.c2state.chunkQueue.length = 11
  ∧ (Streaming.endSession Streaming.c2state (fun _ => true) true).uploads.length = 10
  ∧ (Streaming.endSession Streaming.c2state (fun _ => true) true).state.chunkQueue
      = [{ chunk_type := Streaming.ChunkType.audio, data := [], timestamp := 10,
           session_id := "A" }] := by
  decide

open Streaming in
/-- C2 amended: endSession on an active session disarms the flush timer
and performs one final flush that still honours the per-tick batch limit,
uploading exactly min(queue length, 10) chunks; the queue is left empty
only in the case that at most 10 chunks were queued and all their uploads
succeeded, and endSession itself never clears the queue. -/
theorem C2_terminal_flush_is_batch_limited :
    (∀ (s : StreamingState) (sess : StreamSession) (out : Nat → Bool) (endOk : Bool),
      s.currentSession = some sess →
        (endSession s out endOk).state.uploadIntervalArmed = false
      ∧ (endSession s out endOk).uploads.length = min s.chunkQueue.length 10)
  ∧ (∀ (s : StreamingState) (sess : StreamSession) (endOk : Bool),
      s.currentSession = some sess → s.chunkQueue.length ≤ 10 →
      (endSession s (fun _ => true) endOk).state.chunkQueue = []) := by
  constructor
  · intro s sess out endOk hs
    rw [endSession_some s sess out endOk hs]
    by_cases h0 : s.chunkQueue.length = 0
    · have hpq := processChunkQueue_empty
        { s with isStreaming := false, uploadIntervalArmed := false } out (by simpa using h0)
      cases endOk <;>
        simp [stopChunkUploader, hpq, h0]
    · have hpq := processChunkQueue_some
        { s with isStreaming := false, uploadIntervalArmed := false } sess out
        (by simpa using hs) (by simpa using h0)
      have hup := processBatch_snd_length sess.session_id (s.chunkQueue.take 10) out 0
        (s.chunkQueue.drop 10)
      cases endOk <;>
        simp [stopChunkUploader, hpq, hup, List.length_take, Nat.min_comm]
  · intro s sess endOk hs hle
    rw [endSession_some s sess (fun _ => true) endOk hs]
    by_cases h0 : s.chunkQueue.length = 0
    · have hpq := processChunkQueue_empty
        { s with isStreaming := false, uploadIntervalArmed := false } (fun _ => true)
        (by simpa using h0)
      have hnil : s.chunkQueue = [] := List.length_eq_zero.mp h0
      cases endOk <;> (simp [stopChunkUploader, hpq]; exact hnil)
    · have hpq := processChunkQueue_some
        { s with isStreaming := false, uploadIntervalArmed := false } sess (fun _ => true)
        (by simpa using hs) (by simpa using h0)
      have hall := processBatch_fst_allTrue sess.session_id (s.chunkQueue.take 10) 0
        (s.chunkQueue.drop 10)
      have hdrop : s.chunkQueue.drop 10 = [] := List.drop_eq_nil_of_le (by omega)
      cases endOk <;> (simp [stopChunkUploader, hpq]; rw [hall, hdrop])

/-- Witness for C2 amended at concrete inputs: ending the 7-chunk session
with all uploads succeeding disarms the timer, uploads all 7 chunks, and
empties the queue. -/
theorem C2_terminal_flush_is_batch_limited_witness :
    ((Streaming.endSession Streaming.c2small (fun _ => true) true).state.uploadIntervalArmed
        = false
  ∧ (Streaming.endSession Streaming.c2small (fun _ => true) true).uploads.length
      = min Streaming.c2small.chunkQueue.length 10)
  ∧ (Streaming.endSession Streaming.c2small (fun _ => true) true).state.chunkQueue = [] :=
  ⟨C2_terminal_flush_is_batch_limited.1 Streaming.c2small
     { session_id := "A", device_id := "d", is_active := true } (fun _ => true) true
     (by decide),
   C2_terminal_flush_is_batch_limited.2 Streaming.c2small
     { session_id := "A", device_id := "d", is_active := true } true
     (by decide) (by decide)⟩

/-- Counterexample to C3 as stated: when the end-session backend request
fails, endSession re-throws the error instead of merely logging it, and
currentSession is not cleared. -/
theorem C3_counterexample :
    (Streaming.endSession Streaming.c2state (fun _ => true) false).ok = false
  ∧ (Streaming.endSession Streaming.c2state (fun _ => true) false).state.currentSession
      = some { session_id := "A", device_id := "d", is_active := true } := by
  decide

open Streaming in
/-- C3 amended: on an active session endSession always clears isStreaming
and therefore leaves no active session in the isSessionActive sense, but
when the termination request fails the error is re-thrown and
currentSession stays set; the chunk queue is never cleared by endSession
in either case. -/
theorem C3_end_failure_rethrows_keeps_session :
    ∀ (s : StreamingState) (sess : StreamSession) (out : Nat → Bool) (endOk : Bool),
      s.currentSession = some sess →
        (endSession s out endOk).state.isStreaming = false
      ∧ isSessionActive (endSession s out endOk).state = false
      ∧ (endOk = false →
            (endSession s out endOk).ok = false
          ∧ (endSession s out endOk).state.currentSession = some sess) := by
  intro s sess out endOk hs
  have hf := processChunkQueue_fields
    { s with isStreaming := false, uploadIntervalArmed := false } out
  have hstream : (endSession s out endOk).state.isStreaming = false := by
    rw [endSession_some s sess out endOk hs]
    cases endOk <;> simpa [stopChunkUploader] using hf.2.1
  refine ⟨hstream, ?_, ?_⟩
  · simp [isSessionActive, hstream]
  · intro hek
    subst hek
    rw [endSession_some s sess out false hs]
    exact ⟨rfl, by simpa [stopChunkUploader, hs] using hf.1⟩

/-- Witness for C3 amended at concrete input: ending the 11-chunk session
with a failing termination request clears isStreaming, reports no active
session, re-throws, and keeps currentSession. -/
theorem C3_end_failure_rethrows_keeps_session_witness :
    (Streaming.endSession Streaming.c2state (fun _ => false) false).state.isStreaming = false
  ∧ Streaming.isSessionActive
      (Streaming.endSession Streaming.c2state (fun _ => false) false).state = false
  ∧ (false = false →
        (Streaming.endSession Streaming.c2state (fun _ => false) false).ok = false
      ∧ (Streaming.endSession Streaming.c2state (fun _ => false) false).state.currentSession
          = some { session_id := "A", device_id := "d", is_active := true }) :=
  C3_end_failure_rethrows_keeps_session Streaming.c2state
    { session_id := "A", device_id := "d", is_active := true } (fun _ => false) false
    (by decide)

/-- Counterexample to C6 as stated: with session A active, startSession
succeeds (no SessionError is raised for the existing session) and the
active session is replaced by the new session B. -/
theorem C6_counterexample :
    Streaming.c6active.currentSession
      = some { session_id := "A", device_id := "d1", is_active := true }
  ∧ (Streaming.startSession Streaming.c6active "d2" (some "B")).2 = true
  ∧ (Streaming.startSession Streaming.c6active "d2" (some "B")).1.currentSession
      = some { session_id := "B", device_id := "d2", is_active := true } := by
  decide

open Streaming in
/-- C6 amended: startSession performs no check for an already active
session and never fails on that account; whenever the backend request
succeeds it replaces currentSession with the fresh session and marks the
pipeline streaming, and it fails only when the backend request fails, in
which case the state is unchanged. -/
theorem C6_startSession_replaces_without_error :
    (∀ (s : StreamingState) (d sid : String),
        (startSession s d (some sid)).2 = true
      ∧ (startSession s d (some sid)).1.currentSession
          = some { session_id := sid, device_id := d, is_active := true }
      ∧ (startSession s d (some sid)).1.isStreaming = true)
  ∧ (∀ (s : StreamingState) (d : String),
        (startSession s d none).2 = false ∧ (startSession s d none).1 = s) := by
  exact ⟨fun s d sid => ⟨rfl, rfl, rfl⟩, fun s d => ⟨rfl, rfl⟩⟩

/-- Counterexample to C8 as stated: with the attempt counter already at
MAX_RECONNECT_ATTEMPTS after ten abnormal closes, a connect call whose
socket constructor throws still schedules a reconnect (the catch path
calls scheduleReconnect unconditionally), so a reconnect is scheduled
neither on a socket close nor while attemptCount is below the bound. -/
theorem C8_counterexample :
    WS.c8exhausted.reconnectAttempts = WS.MAX_RECONNECT_ATTEMPTS
  ∧ WS.c8state.reconnectAttempts = WS.MAX_RECONNECT_ATTEMPTS + 1
  ∧ WS.c8state.reconnectTimer = some 30000
  ∧ WS.c8state.scheduledDelays = WS.c8exhausted.scheduledDelays ++ [30000] := by
  decide

/-- C8 amended: the close handler schedules a reconnect only for a
non-normal close code while the attempt counter is below
MAX_RECONNECT_ATTEMPTS, and once the counter has reached the bound a
close never schedules, increments or arms anything; however connect
itself schedules a reconnect unconditionally when the socket constructor
fails, regardless of the attempt counter. -/
theorem C8_reconnect_scheduling_characterised :
    (∀ (s : WS.WSState) (code : Nat),
        WS.MAX_RECONNECT_ATTEMPTS ≤ s.reconnectAttempts →
        (WS.onClose s code).reconnectTimer = s.reconnectTimer
      ∧ (WS.onClose s code).reconnectAttempts = s.reconnectAttempts
      ∧ (WS.onClose s code).scheduledDelays = s.scheduledDelays)
  ∧ (∀ s : WS.WSState, (WS.onClose s 1000).scheduledDelays = s.scheduledDelays)
  ∧ (∀ s : WS.WSState,
        ¬ s.socket = some WS.ReadyState.CONNECTING →
        ¬ s.socket = some WS.ReadyState.OPEN →
        (WS.connect s true false).reconnectTimer
          = some (min (WS.RECONNECT_INTERVAL * (s.reconnectAttempts + 1)) 30000)
      ∧ (WS.connect s true false).reconnectAttempts = s.reconnectAttempts + 1) := by
  refine ⟨?_, ?_, ?_⟩
  · intro s code h
    have hng : ¬ s.reconnectAttempts < WS.MAX_RECONNECT_ATTEMPTS := by omega
    refine ⟨?_, ?_, ?_⟩ <;> simp [WS.onClose, hng]
  · intro s
    simp [WS.onClose]
  · intro s h1 h2
    have hns : ¬ (s.socket = some WS.ReadyState.CONNECTING
        ∨ s.socket = some WS.ReadyState.OPEN) := by
      intro hc
      rcases hc with hc | hc
      · exact h1 hc
      · exact h2 hc
    constructor <;> simp [WS.connect, hns, WS.scheduleReconnect]

/-- Witness for C8 amended at concrete inputs: a close in the exhausted
state leaves the timer alone, and a failing connect from the initial
state schedules the first delay. -/
theorem C8_reconnect_scheduling_characterised_witness :
    (WS.onClose WS.c8exhausted 1006).reconnectTimer = WS.c8exhausted.reconnectTimer
  ∧ (WS.connect (WS.wsInit "dev") true false).reconnectAttempts
      = (WS.wsInit "dev").reconnectAttempts + 1 :=
  ⟨(C8_reconnect_scheduling_characterised.1 WS.c8exhausted 1006 (by decide)).1,
   (C8_reconnect_scheduling_characterised.2.2 (WS.wsInit "dev")
      (by decide) (by decide)).2⟩

/-- Counterexample to C9 as stated: a chunk stamped with session A
survives the end of session A in the queue (its terminal-flush upload
failed), and after session B starts the next flush uploads it, with the
request addressed to session B. -/
theorem C9_counterexample :
    Streaming.c9end.state.currentSession = none
  ∧ Streaming.c9end.state.chunkQueue
      = [{ chunk_type := Streaming.ChunkType.audio, data := [], timestamp := 7,
           session_id := "A" }]
  ∧ Streaming.c9later.currentSession
      = some { session_id := "B", device_id := "dB", is_active := true }
  ∧ (Streaming.processChunkQueue Streaming.c9later (fun _ => true)).2
      = [{ targetSession := "B",
           chunk := { chunk_type := Streaming.ChunkType.audio, data := [], timestamp := 7,
                      session_id := "A" },
           ok := true }] := by
  decide

open Streaming in
/-- C9 amended: every chunk is stamped at capture with the id of the
session active at that moment (any chunk added to the queue by
uploadChunk either was already queued or carries the current session id),
but queued chunks are never filtered by their stamp: every upload attempt
a flush issues is addressed to the currently active session id, whatever
session id the chunk itself carries. -/
theorem C9_stamped_but_uploaded_under_current :
    (∀ (s : StreamingState) (sess : StreamSession) (ct : ChunkType) (d : List Nat) (now : Nat),
      s.currentSession = some sess → s.isStreaming = true →
      ∀ c ∈ (uploadChunk s ct d now).chunkQueue,
        c ∈ s.chunkQueue
        ∨ c = { chunk_type := ct, data := d, timestamp := now,
                session_id := sess.session_id })
  ∧ (∀ (s : StreamingState) (out : Nat → Bool) (a : UploadAttempt),
      a ∈ (processChunkQueue s out).2 →
      ∃ sess, s.currentSession = some sess ∧ a.targetSession = sess.session_id) := by
  constructor
  · intro s sess ct d now hs hstr c hc
    rw [uploadChunk_active s sess ct d now hs hstr] at hc
    have hc2 : c ∈ s.chunkQueue ++
        [({ chunk_type := ct, data := d, timestamp := now,
            session_id := sess.session_id } : StreamChunk)] := by
      by_cases hp : (s.chunkQueue ++
          [({ chunk_type := ct, data := d, timestamp := now,
              session_id := sess.session_id } : StreamChunk)]).length > 50
      · rw [if_pos hp] at hc
        exact List.tail_subset _ hc
      · rwa [if_neg hp] at hc
    simpa using List.mem_append.mp hc2
  · intro s out a ha
    cases hcs : s.currentSession with
    | none =>
      rw [processChunkQueue_none s out hcs] at ha
      simp at ha
    | some sess =>
      by_cases h0 : s.chunkQueue.length = 0
      · rw [processChunkQueue_empty s out h0] at ha
        simp at ha
      · rw [processChunkQueue_some s sess out hcs h0] at ha
        exact ⟨sess, rfl,
          processBatch_snd_target sess.session_id (s.chunkQueue.take 10) out 0
            (s.chunkQueue.drop 10) a ha⟩

/-- Witness for C9 amended at concrete inputs: the chunk appended in the
c1state scenario carries the session A stamp, and the attempt issued by
the flush after session B started is addressed to session B. -/
theorem C9_stamped_but_uploaded_under_current_witness :
    (∀ c ∈ (Streaming.uploadChunk Streaming.c1state Streaming.ChunkType.video [] 9).chunkQueue,
        c ∈ Streaming.c1state.chunkQueue
      ∨ c = { chunk_type := Streaming.ChunkType.video, data := [], timestamp := 9,
              session_id := "A" })
  ∧ (∀ a ∈ (Streaming.processChunkQueue Streaming.c9later (fun _ => true)).2,
      ∃ sess, Streaming.c9later.currentSession = some sess
        ∧ a.targetSession = sess.session_id) :=
  ⟨fun c hc => C9_stamped_but_uploaded_under_current.1 Streaming.c1state
      { session_id := "A", device_id := "d", is_active := true }
      Streaming.ChunkType.video [] 9 rfl rfl c hc,
   fun a ha => C9_stamped_but_uploaded_under_current.2 Streaming.c9later
      (fun _ => true) a ha⟩
